import Mathlib

/-!
Shallow embedding of the Kinesis on-demand scaling demo (Python sources) and
proofs about it.  Python floats are modelled by `ℚ` (all arithmetic the claims
touch is exact: sums, products, divisions, doubling, min/max), except where the
source takes a square root, where `ℝ` is used.  Wall-clock instants
(`datetime.utcnow()`, `time.time()`) are passed as explicit `ℚ` parameters.
Python exceptions are modelled with `Except`.
-/

namespace KinesisDemo

/-! ### src/shared/kinesis_producer.py — ExponentialBackoff -/

/-- State of `ExponentialBackoff` (src/shared/kinesis_producer.py).  `attempt`
is the mutable counter; the other fields are the constructor arguments. -/
structure ExponentialBackoff where
  base_delay : ℚ
  max_delay : ℚ
  max_retries : ℕ
  jitter : Bool
  attempt : ℕ
deriving DecidableEq, Repr

/-- `ExponentialBackoff.__init__`: `attempt` starts at 0. -/
def ExponentialBackoff.init (base_delay max_delay : ℚ) (max_retries : ℕ)
    (jitter : Bool) : ExponentialBackoff :=
  { base_delay := base_delay, max_delay := max_delay, max_retries := max_retries,
    jitter := jitter, attempt := 0 }

/-- `ExponentialBackoff.should_retry`: `self.attempt < self.max_retries`. -/
def ExponentialBackoff.shouldRetry (b : ExponentialBackoff) : Bool :=
  b.attempt < b.max_retries

/-- `ExponentialBackoff.get_delay`.  The mutation of `self.attempt` is made
explicit by returning the updated state.  `rand` models `random.random()`;
it is only read when `jitter` is true. -/
def ExponentialBackoff.getDelay (b : ExponentialBackoff) (rand : ℚ) :
    ℚ × ExponentialBackoff :=
  if b.attempt ≥ b.max_retries then (0, b)
  else
    let delay := min (b.base_delay * 2 ^ b.attempt) b.max_delay
    let delay := if b.jitter then delay * (1/2 + rand * (1/2)) else delay
    (delay, { b with attempt := b.attempt + 1 })

/-! ### src/shared/kinesis_producer.py — ProducerMetrics -/

/-- `ProducerMetrics` (src/shared/kinesis_producer.py).  Counters are `ℕ`,
accumulated latency is `ℚ` milliseconds; `last_send_time` is an instant. -/
structure ProducerMetrics where
  messages_sent : ℕ
  messages_failed : ℕ
  throttle_exceptions : ℕ
  total_latency_ms : ℚ
  batch_count : ℕ
  retry_count : ℕ
  message_size : ℕ
  last_send_time : Option ℚ
deriving DecidableEq, Repr

/-- `ProducerMetrics.get_average_latency_ms`. -/
def ProducerMetrics.getAverageLatencyMs (m : ProducerMetrics) : ℚ :=
  if m.messages_sent = 0 then 0
  else m.total_latency_ms / (m.messages_sent : ℚ)

/-- `ProducerMetrics.get_average_message_size`. -/
def ProducerMetrics.getAverageMessageSize (m : ProducerMetrics) : ℚ :=
  if m.messages_sent = 0 then 0
  else (m.message_size : ℚ) / (m.messages_sent : ℚ)

/-- `ProducerMetrics.get_success_rate`. -/
def ProducerMetrics.getSuccessRate (m : ProducerMetrics) : ℚ :=
  let total_attempts := m.messages_sent + m.messages_failed
  if total_attempts = 0 then 100
  else ((m.messages_sent : ℚ) / (total_attempts : ℚ)) * 100

/-! ### src/lambda/sentiment-consumer/extractors/geographic_analyzer.py -/

/-- `GeographicSentimentAnalyzer._determine_dominant_sentiment`. -/
def determineDominantSentiment (positive_count negative_count neutral_count : ℕ) :
    String :=
  let max_count := max positive_count (max negative_count neutral_count)
  if positive_count = max_count then "positive"
  else if neutral_count = max_count then "neutral"
  else "negative"

/-- Restatement of the spec sentence for the dominant sentiment: the class with
the highest count wins, ties resolved with precedence positive > neutral >
negative. -/
def dominantSentimentSpec (positive_count negative_count neutral_count : ℕ) :
    String :=
  if negative_count ≤ positive_count ∧ neutral_count ≤ positive_count then
    "positive"
  else if negative_count ≤ neutral_count then "neutral"
  else "negative"

/-! ### src/lambda/sentiment-consumer/batch_processor.py -/

/-- `BatchProcessor` holds only its configured maximum batch size. -/
structure BatchProcessor where
  max_batch_size : ℕ
deriving DecidableEq, Repr

/-- `BatchProcessor.__init__`: raises `ValueError` when `max_batch_size < 1`. -/
def BatchProcessor.make (max_batch_size : ℕ) : Except String BatchProcessor :=
  if max_batch_size < 1 then Except.error "max_batch_size must be at least 1"
  else Except.ok { max_batch_size := max_batch_size }

/-- `BatchProcessor.create_batches`: `for i in range(0, len(posts), k)` appends
the slice `posts[i:i+k]`.  `range(0, n, k)` for `k ≥ 1` enumerates the first
`⌈n/k⌉` multiples of `k`; the slice `posts[i:i+k]` is `(posts.drop i).take k`.
(The constructor forbids `k = 0`, where Python `range` would raise.) -/
def createBatches (max_batch_size : ℕ) (posts : List α) : List (List α) :=
  if posts.isEmpty then []
  else
    (List.range ((posts.length + max_batch_size - 1) / max_batch_size)).map
      (fun i => (posts.drop (i * max_batch_size)).take max_batch_size)

/-! ### src/shared/post_generator.py — TrafficPatternController

Instants (`datetime.utcnow()`) are `ℚ` seconds since an arbitrary epoch, passed
explicitly as `now`.  The mutation of `self.current_phase_index` performed by
`get_current_phase` is not observed by any accessor modelled here and is
omitted. -/

/-- `TrafficPhase` (src/shared/post_generator.py). -/
structure TrafficPhase where
  phase_number : ℕ
  target_tps : ℕ
  duration_seconds : ℕ
  start_time : Option ℚ
deriving DecidableEq, Repr

instance : Inhabited TrafficPhase := ⟨⟨0, 0, 0, none⟩⟩

/-- `DemoConfig` restricted to the fields the controller reads:
`phase_durations` (validated elsewhere to have length 4, all positive). -/
structure DemoConfig where
  phase_durations : List ℕ
deriving DecidableEq, Repr

/-- `DemoConfig.get_phase_duration(phase)` = `phase_durations[phase - 1]`. -/
def DemoConfig.getPhaseDuration (c : DemoConfig) (phase : ℕ) : ℕ :=
  c.phase_durations.getD (phase - 1) 0

/-- `DemoConfig.get_total_demo_duration` = `sum(phase_durations)`. -/
def DemoConfig.getTotalDemoDuration (c : DemoConfig) : ℕ :=
  c.phase_durations.sum

/-- `TrafficPatternController` state. -/
structure TrafficPatternController where
  config : DemoConfig
  phases : List TrafficPhase
  demo_start_time : Option ℚ
  current_phase_index : ℕ
deriving DecidableEq, Repr

/-- `TrafficPatternController._create_phases`: four phases with default target
rates `[100, 10000, 50000, 100]` and the configured durations. -/
def createPhases (config : DemoConfig) : List TrafficPhase :=
  (List.range 4).map fun i =>
    { phase_number := i + 1,
      target_tps := [100, 10000, 50000, 100].getD i 0,
      duration_seconds := config.getPhaseDuration (i + 1),
      start_time := none }

/-- `TrafficPatternController.__init__`. -/
def TrafficPatternController.init (config : DemoConfig) :
    TrafficPatternController :=
  { config := config, phases := createPhases config,
    demo_start_time := none, current_phase_index := 0 }

/-- Chains `phase.start_time` values by cumulative duration, as the loop in
`start_demo` does. -/
def assignStartTimes : List TrafficPhase → ℚ → List TrafficPhase
  | [], _ => []
  | p :: rest, t =>
      { p with start_time := some t } :: assignStartTimes rest (t + p.duration_seconds)

/-- `TrafficPatternController.start_demo`. -/
def TrafficPatternController.startDemo (c : TrafficPatternController) (now : ℚ) :
    TrafficPatternController :=
  { c with
      demo_start_time := some now
      current_phase_index := 0
      phases := assignStartTimes c.phases now }

/-- The phase-search loop of `get_current_phase`: walk the phases accumulating
duration until the elapsed time falls within a phase's window. -/
def findPhase (elapsed : ℚ) : List TrafficPhase → ℚ → Option TrafficPhase
  | [], _ => none
  | p :: rest, cumulative =>
      if elapsed ≤ cumulative + (p.duration_seconds : ℚ) then some p
      else findPhase elapsed rest (cumulative + (p.duration_seconds : ℚ))

/-- `TrafficPatternController.get_current_phase`: raises `RuntimeError("Demo
has not been started")` when `demo_start_time is None`; past the total
duration it pins to the last phase (`self.phases[-1]`). -/
def TrafficPatternController.getCurrentPhase (c : TrafficPatternController)
    (now : ℚ) : Except String TrafficPhase :=
  match c.demo_start_time with
  | none => Except.error "Demo has not been started"
  | some start =>
      let elapsed := now - start
      match findPhase elapsed c.phases 0 with
      | some p => Except.ok p
      | none => Except.ok (c.phases.getLastD default)

/-- `TrafficPatternController.get_target_tps`. -/
def TrafficPatternController.getTargetTps (c : TrafficPatternController)
    (now : ℚ) : Except String ℕ := do
  let current_phase ← c.getCurrentPhase now
  return current_phase.target_tps

/-- `TrafficPatternController.get_phase_progress`: returns `0.0` (without
raising) when the demo has not been started. -/
def TrafficPatternController.getPhaseProgress (c : TrafficPatternController)
    (now : ℚ) : Except String ℚ :=
  match c.demo_start_time with
  | none => Except.ok 0
  | some _ => do
      let current_phase ← c.getCurrentPhase now
      match current_phase.start_time with
      | none => return 0
      | some st =>
          return min 1 ((now - st) / (current_phase.duration_seconds : ℚ))

/-- `TrafficPatternController.get_demo_progress`: returns `0.0` when not
started; this method cannot raise, so its result type is plain `ℚ`. -/
def TrafficPatternController.getDemoProgress (c : TrafficPatternController)
    (now : ℚ) : ℚ :=
  match c.demo_start_time with
  | none => 0
  | some start =>
      min 1 ((now - start) / (c.config.getTotalDemoDuration : ℚ))

/-- `TrafficPatternController.get_post_type_distribution`: returns the default
`(0.7, 0.2, 0.1)` (without raising) when the demo has not been started. -/
def TrafficPatternController.getPostTypeDistribution
    (c : TrafficPatternController) (now : ℚ) : Except String (ℚ × ℚ × ℚ) :=
  match c.demo_start_time with
  | none => Except.ok (7/10, 2/10, 1/10)
  | some _ => do
      let current_phase ← c.getCurrentPhase now
      if current_phase.phase_number ≤ 2 then
        return (7/10, 2/10, 1/10)
      else
        return (4/10, 4/10, 2/10)

/-! ### src/shared/kinesis_producer.py — circuit breaker

`_send_current_batch` is modelled as a transition on the producer state slice
it touches.  The outcome of the underlying `_send_batch_with_retry` call
(success, or an exception after retries are exhausted) is environment-driven
and passed as a parameter; `enable_metrics` is taken as true (the demo
default).  Latency/batch-count bookkeeping not mentioned by any claim is
omitted. -/

/-- Outcome of the underlying `_send_batch_with_retry` call, had it been
made. -/
inductive SendOutcome
  | success
  | failure
deriving DecidableEq, Repr

/-- What `_send_current_batch` did: returned early on an empty batch, dropped
the batch because the circuit breaker was open, or attempted the underlying
publish call. -/
inductive SendAction
  | skipped
  | dropped
  | attempted
deriving DecidableEq, Repr

/-- Producer state slice read and written by `_send_current_batch` and
`_is_circuit_breaker_open`. -/
structure ProducerState where
  circuit_breaker_failures : ℕ
  circuit_breaker_last_failure : Option ℚ
  circuit_breaker_threshold : ℕ
  circuit_breaker_timeout : ℚ
  messages_sent : ℕ
  messages_failed : ℕ
deriving DecidableEq, Repr

/-- Circuit-breaker fields as `KinesisProducer.__init__` sets them:
threshold 3, timeout 30 seconds, no failures recorded. -/
def ProducerState.init : ProducerState :=
  { circuit_breaker_failures := 0, circuit_breaker_last_failure := none,
    circuit_breaker_threshold := 3, circuit_breaker_timeout := 30,
    messages_sent := 0, messages_failed := 0 }

/-- `KinesisProducer._is_circuit_breaker_open` at instant `now`
(`time.time()`). -/
def ProducerState.isCircuitBreakerOpen (p : ProducerState) (now : ℚ) : Bool :=
  if p.circuit_breaker_failures < p.circuit_breaker_threshold then false
  else
    match p.circuit_breaker_last_failure with
    | none => false
    | some t => decide (now - t < p.circuit_breaker_timeout)

/-- `KinesisProducer._send_current_batch` on a batch of `batchSize` records at
instant `now`.  Returns the new state and what was done with the batch. -/
def ProducerState.sendCurrentBatch (p : ProducerState) (batchSize : ℕ)
    (now : ℚ) (outcome : SendOutcome) : ProducerState × SendAction :=
  if batchSize = 0 then (p, SendAction.skipped)
  else if p.isCircuitBreakerOpen now then
    ({ p with messages_failed := p.messages_failed + batchSize },
     SendAction.dropped)
  else
    match outcome with
    | SendOutcome.success =>
        ({ p with
            messages_sent := p.messages_sent + batchSize
            circuit_breaker_failures := 0 },
         SendAction.attempted)
    | SendOutcome.failure =>
        ({ p with
            circuit_breaker_failures := p.circuit_breaker_failures + 1
            circuit_breaker_last_failure := some now
            messages_failed := p.messages_failed + batchSize },
         SendAction.attempted)

/-! ### src/shared/models.py

`datetime` values are modelled by their ISO-8601 strings: `isoformat` /
`fromisoformat` form a bijection between datetimes and their canonical
strings, so a datetime is represented here by that string, `isoformat` is the
identity and `fromisoformat` accepts exactly the well-formed strings (the
validity test is `isoTimestamp`, a coarse model of the stdlib parser — the
claims only ever apply it to canonical strings). -/

/-- `PostType` enumeration. -/
inductive PostType
  | original
  | share
  | reply
deriving DecidableEq, Repr

/-- `PostType.value` strings. -/
def PostType.value : PostType → String
  | PostType.original => "original"
  | PostType.share => "share"
  | PostType.reply => "reply"

/-- `PostType(value)` enum lookup: raises `ValueError` on an unknown value. -/
def postTypeOfValue (s : String) : Except String PostType :=
  if s = "original" then Except.ok PostType.original
  else if s = "share" then Except.ok PostType.share
  else if s = "reply" then Except.ok PostType.reply
  else Except.error "is not a valid PostType"

/-- `GeoLocation` fields. -/
structure GeoLocation where
  latitude : ℚ
  longitude : ℚ
  city : String
  country : String
deriving DecidableEq, Repr

/-- `GeoLocation(...)` construction including `__post_init__` validation of
the coordinates. -/
def GeoLocation.make (latitude longitude : ℚ) (city country : String) :
    Except String GeoLocation :=
  if ¬(-90 ≤ latitude ∧ latitude ≤ 90) then Except.error "Invalid latitude"
  else if ¬(-180 ≤ longitude ∧ longitude ≤ 180) then
    Except.error "Invalid longitude"
  else Except.ok ⟨latitude, longitude, city, country⟩

/-- `SocialMediaPost` fields.  `timestamp` is the ISO-8601 representation of
the datetime (see the section comment). -/
structure SocialMediaPost where
  id : String
  timestamp : String
  user_id : String
  username : String
  content : String
  hashtags : List String
  mentions : List String
  location : Option GeoLocation
  engagement_score : ℚ
  post_type : PostType
deriving DecidableEq, Repr

instance : Inhabited SocialMediaPost :=
  ⟨⟨"", "", "", "", "", [], [], none, 0, PostType.original⟩⟩

/-- Stands in for the fresh `uuid.uuid4().hex[:8]` drawn when `user_id` is
empty (the draw is nondeterministic; any fixed fresh value models it). -/
def freshUserIdSuffix : String := "00000000"

/-- `SocialMediaPost(...)` construction including `__post_init__`: an empty
`user_id` / `username` is replaced by a generated one, and a negative
engagement score raises `ValueError`. -/
def SocialMediaPost.make (id timestamp user_id username content : String)
    (hashtags mentions : List String) (location : Option GeoLocation)
    (engagement_score : ℚ) (post_type : PostType) :
    Except String SocialMediaPost :=
  let user_id := if user_id = "" then "user_" ++ freshUserIdSuffix else user_id
  let username := if username = "" then "@" ++ user_id else username
  if engagement_score < 0 then
    Except.error "Engagement score cannot be negative"
  else
    Except.ok ⟨id, timestamp, user_id, username, content, hashtags, mentions,
               location, engagement_score, post_type⟩

/-! ### src/shared/serialization.py

The JSON text layer is elided: `json.dumps`/`json.loads` form a bijection
between the JSON value domain below and its textual encodings, so
serialization is modelled down to the JSON value and deserialization up from
it.  Objects produced by `json.loads` have unique keys. -/

/-- JSON values (`None`/`str`/numbers/`bool`/`list`/`dict` as produced by
`json.loads`). -/
inductive JValue
  | null
  | str (s : String)
  | num (q : ℚ)
  | boolean (b : Bool)
  | arr (items : List JValue)
  | obj (fields : List (String × JValue))

/-- Coarse model of the stdlib ISO-8601 parser underlying
`datetime.fromisoformat`: nonempty strings are accepted.  Every canonical
timestamp string is nonempty, so on the serializer's image this agrees with
the stdlib. -/
def isoTimestamp (s : String) : Bool := s ≠ ""

/-- `datetime.fromisoformat`: `ValueError` on a malformed string, otherwise
the datetime (here: its canonical string). -/
def fromisoformat (s : String) : Except String String :=
  if isoTimestamp s then Except.ok s
  else Except.error "Invalid isoformat string"

/-- `asdict` on a `GeoLocation` (the nested conversion performed while
serializing a post): a dict with the four fields in declaration order. -/
def serializeGeo (g : GeoLocation) : JValue :=
  JValue.obj [("latitude", JValue.num g.latitude),
              ("longitude", JValue.num g.longitude),
              ("city", JValue.str g.city),
              ("country", JValue.str g.country)]

/-- `serialize_to_json` on a `SocialMediaPost` down to the JSON value:
`asdict` lists the fields in declaration order; `DemoJSONEncoder` renders the
datetime via `isoformat`, the `PostType` via `.value`, and a `None` location
as JSON null. -/
def serializePost (p : SocialMediaPost) : JValue :=
  JValue.obj
    [("id", JValue.str p.id),
     ("timestamp", JValue.str p.timestamp),
     ("user_id", JValue.str p.user_id),
     ("username", JValue.str p.username),
     ("content", JValue.str p.content),
     ("hashtags", JValue.arr (p.hashtags.map JValue.str)),
     ("mentions", JValue.arr (p.mentions.map JValue.str)),
     ("location", match p.location with
                  | none => JValue.null
                  | some g => serializeGeo g),
     ("engagement_score", JValue.num p.engagement_score),
     ("post_type", JValue.str p.post_type.value)]

/-- Python exception classes relevant to the deserialization pipeline.  The
distinction matters because `deserialize_from_json` catches
`(json.JSONDecodeError, TypeError, ValueError)` but not `AttributeError`. -/
inductive PyErr
  | valueError (msg : String)
  | typeError (msg : String)
  | attributeError (msg : String)
deriving DecidableEq, Repr

/-- Values held in `converted_data` during `_dict_to_dataclass`: either a JSON
value carried through unchanged, or the result of one of the three special
conversions. -/
inductive PyValue
  | jv (v : JValue)
  | dt (iso : String)
  | pt (t : PostType)
  | geo (g : GeoLocation)

/-- First-occurrence lookup in an association list (dicts produced by
`json.loads` have unique keys, so first = only occurrence there). -/
def lookupField (fields : List (String × PyValue)) (name : String) :
    Option PyValue :=
  (fields.find? (fun f => f.1 = name)).map Prod.snd

/-- `GeoLocation(**field_value)`: the keyword splat requires exactly the four
field names; `__post_init__` then validates the coordinates.  A non-numeric
latitude/longitude would make the comparison in `__post_init__` raise
`TypeError`; city/country values of a non-string type would be carried
through untyped by Python and are modelled as `TypeError` (no claim reaches
that corner, which exists only off the serializer's image). -/
def geoFromDict (fields : List (String × JValue)) : Except PyErr GeoLocation :=
  if (fields.map Prod.fst).Perm ["latitude", "longitude", "city", "country"] then
    match (fields.find? (fun f => f.1 = "latitude")).map Prod.snd,
          (fields.find? (fun f => f.1 = "longitude")).map Prod.snd,
          (fields.find? (fun f => f.1 = "city")).map Prod.snd,
          (fields.find? (fun f => f.1 = "country")).map Prod.snd with
    | some (JValue.num lat), some (JValue.num lon),
      some (JValue.str city), some (JValue.str country) =>
        match GeoLocation.make lat lon city country with
        | Except.ok g => Except.ok g
        | Except.error e => Except.error (PyErr.valueError e)
    | _, _, _, _ => Except.error (PyErr.typeError "unorderable or untyped field")
  else Except.error (PyErr.typeError "unexpected keyword arguments")

/-- The per-field conversion loop of `_dict_to_dataclass` for
`SocialMediaPost`: `timestamp` strings go through `fromisoformat`, `post_type`
strings through the `PostType` enum, non-empty `location` dicts through
`GeoLocation(**...)`; everything else is carried through unchanged. -/
def convertField (name : String) (v : JValue) : Except PyErr PyValue :=
  if name = "timestamp" then
    match v with
    | JValue.str s =>
        match fromisoformat s with
        | Except.ok d => Except.ok (PyValue.dt d)
        | Except.error e => Except.error (PyErr.valueError e)
    | _ => Except.ok (PyValue.jv v)
  else if name = "post_type" then
    match v with
    | JValue.str s =>
        match postTypeOfValue s with
        | Except.ok t => Except.ok (PyValue.pt t)
        | Except.error e => Except.error (PyErr.valueError e)
    | _ => Except.ok (PyValue.jv v)
  else if name = "location" then
    match v with
    | JValue.obj [] => Except.ok (PyValue.jv v)
    | JValue.obj fs =>
        match geoFromDict fs with
        | Except.ok g => Except.ok (PyValue.geo g)
        | Except.error e => Except.error e
    | _ => Except.ok (PyValue.jv v)
  else Except.ok (PyValue.jv v)

/-- Decodes a JSON array of strings into `List String`, as required to give
the typed `hashtags`/`mentions` fields (Python would carry through a list of
arbitrary values; non-string elements are modelled as `TypeError`, a corner
no claim reaches). -/
def decodeStringList : List JValue → Except PyErr (List String)
  | [] => Except.ok []
  | JValue.str s :: rest => do
      let tail ← decodeStringList rest
      return s :: tail
  | _ :: _ => Except.error (PyErr.typeError "non-string list element")

/-- `SocialMediaPost(**converted_data)`: reads each field by name (a missing
field takes the dataclass default; an extra key raises `TypeError`; a value
whose shape does not fit the typed field is modelled as `TypeError` — Python
would carry it through untyped, a corner no claim reaches), then runs
`__post_init__` via `SocialMediaPost.make`.  Defaults drawn from
`uuid.uuid4()` / `datetime.utcnow()` are modelled by fixed fresh values. -/
def constructPost (converted : List (String × PyValue)) :
    Except PyErr SocialMediaPost :=
  if (converted.map Prod.fst).all
      (fun n => n ∈ ["id", "timestamp", "user_id", "username", "content",
                     "hashtags", "mentions", "location", "engagement_score",
                     "post_type"]) then do
    let id ← match lookupField converted "id" with
      | none => Except.ok ("00000000-0000-0000-0000-" ++ freshUserIdSuffix)
      | some (PyValue.jv (JValue.str s)) => Except.ok s
      | some _ => Except.error (PyErr.typeError "id")
    let timestamp ← match lookupField converted "timestamp" with
      | none => Except.ok "1970-01-01T00:00:00"
      | some (PyValue.dt d) => Except.ok d
      | some (PyValue.jv (JValue.str s)) => Except.ok s
      | some _ => Except.error (PyErr.typeError "timestamp")
    let user_id ← match lookupField converted "user_id" with
      | none => Except.ok ""
      | some (PyValue.jv (JValue.str s)) => Except.ok s
      | some _ => Except.error (PyErr.typeError "user_id")
    let username ← match lookupField converted "username" with
      | none => Except.ok ""
      | some (PyValue.jv (JValue.str s)) => Except.ok s
      | some _ => Except.error (PyErr.typeError "username")
    let content ← match lookupField converted "content" with
      | none => Except.ok ""
      | some (PyValue.jv (JValue.str s)) => Except.ok s
      | some _ => Except.error (PyErr.typeError "content")
    let hashtags ← match lookupField converted "hashtags" with
      | none => Except.ok []
      | some (PyValue.jv (JValue.arr items)) => decodeStringList items
      | some _ => Except.error (PyErr.typeError "hashtags")
    let mentions ← match lookupField converted "mentions" with
      | none => Except.ok []
      | some (PyValue.jv (JValue.arr items)) => decodeStringList items
      | some _ => Except.error (PyErr.typeError "mentions")
    let location ← match lookupField converted "location" with
      | none => Except.ok none
      | some (PyValue.geo g) => Except.ok (some g)
      | some (PyValue.jv JValue.null) => Except.ok none
      | some _ => Except.error (PyErr.typeError "location")
    let engagement_score ← match lookupField converted "engagement_score" with
      | none => Except.ok (0 : ℚ)
      | some (PyValue.jv (JValue.num q)) => Except.ok q
      | some _ => Except.error (PyErr.typeError "engagement_score")
    let post_type ← match lookupField converted "post_type" with
      | none => Except.ok PostType.original
      | some (PyValue.pt t) => Except.ok t
      | some _ => Except.error (PyErr.typeError "post_type")
    match SocialMediaPost.make id timestamp user_id username content hashtags
        mentions location engagement_score post_type with
    | Except.ok p => Except.ok p
    | Except.error e => Except.error (PyErr.valueError e)
  else Except.error (PyErr.typeError "unexpected keyword argument")

/-- Runs the conversion loop over all items of the dict. -/
def convertFields : List (String × JValue) → Except PyErr (List (String × PyValue))
  | [] => Except.ok []
  | (name, v) :: rest => do
      let pv ← convertField name v
      let tail ← convertFields rest
      return (name, pv) :: tail

/-- `_dict_to_dataclass(data, SocialMediaPost)`.  Calling `.items()` on a
non-dict (`json.loads` can return any JSON value) raises `AttributeError`. -/
def dictToPost (v : JValue) : Except PyErr SocialMediaPost :=
  match v with
  | JValue.obj fields => do
      let converted ← convertFields fields
      constructPost converted
  | _ => Except.error (PyErr.attributeError "no attribute items")

/-! ### src/lambda/sentiment-consumer/sentiment_analyzer.py — _parse_response

The claims concern the part of `_parse_response` from the decoded JSON score
array onward: count normalization and the per-index conversion loop.  A score
entry is classified by whether Python `float(score)` succeeds (JSON numbers,
numeric strings, booleans) — carrying the resulting value — or raises
(`ValueError`/`TypeError`). -/

/-- `SentimentResult` (src/lambda/sentiment-consumer/models.py) restricted to
the fields `_parse_response` computes deterministically; the
`datetime.utcnow()` timestamp and the default `analysis_duration_ms` are
omitted. -/
structure SentimentResult where
  post_id : String
  sentiment : String
  sentiment_score : ℚ
  confidence : ℚ
deriving DecidableEq, Repr

instance : Inhabited SentimentResult := ⟨⟨"", "", 0, 0⟩⟩

/-- An entry of the decoded model response array, classified by whether
`float(entry)` succeeds (with value `q`) or raises. -/
inductive JScore
  | num (q : ℚ)
  | nonnum
deriving DecidableEq, Repr

instance : Inhabited JScore := ⟨JScore.num 0⟩

/-- The count-mismatch normalization in `_parse_response`: pad a short array
with neutral `0.0` scores, truncate a long one. -/
def normalizeScores (sentiment_data : List JScore) (expected_count : ℕ) :
    List JScore :=
  if sentiment_data.length < expected_count then
    sentiment_data ++
      List.replicate (expected_count - sentiment_data.length) (JScore.num 0)
  else if sentiment_data.length > expected_count then
    sentiment_data.take expected_count
  else sentiment_data

/-- Body of the `for idx, score in enumerate(sentiment_data)` loop for one
entry: convert to float (clamping to `[-1, 1]` and thresholding at `±0.1`),
or fall back to the neutral result with confidence `0.5` when `float(score)`
raises. -/
def scoreToResult (post : SocialMediaPost) : JScore → SentimentResult
  | JScore.num q =>
      let score_value := max (-1) (min 1 q)
      { post_id := post.id,
        sentiment := if score_value > 1/10 then "positive"
                     else if score_value < -(1/10) then "negative"
                     else "neutral",
        sentiment_score := score_value,
        confidence := 1 }
  | JScore.nonnum =>
      { post_id := post.id, sentiment := "neutral", sentiment_score := 0,
        confidence := 1/2 }

/-- The conversion loop: walks the score array and the posts in lockstep
(results are correlated by index; the `idx >= len(posts)` guard breaks the
loop when the posts run out). -/
def parseLoop : List JScore → List SocialMediaPost → List SentimentResult
  | [], _ => []
  | _ :: _, [] => []
  | s :: ss, post :: rest => scoreToResult post s :: parseLoop ss rest

/-- `_parse_response` from the decoded score array onward. -/
def parseResponseScores (sentiment_data : List JScore)
    (posts : List SocialMediaPost) : List SentimentResult :=
  parseLoop (normalizeScores sentiment_data posts.length) posts

/-- Restatement of the claim for result `i`: the effective entry is
`scores[i]` when present and a neutral `0.0` otherwise (covering both padding
and truncation); a numeric entry is clamped to `[-1,1]` and thresholded at
`±0.1` with confidence `1.0`; a non-numeric entry degrades to a neutral
result with confidence `0.5`. -/
def claimedResult (post : SocialMediaPost) (entry : JScore) : SentimentResult :=
  match entry with
  | JScore.num q =>
      let clamped := max (-1) (min 1 q)
      { post_id := post.id,
        sentiment := if clamped > 1/10 then "positive"
                     else if clamped < -(1/10) then "negative"
                     else "neutral",
        sentiment_score := clamped,
        confidence := 1 }
  | JScore.nonnum =>
      { post_id := post.id, sentiment := "neutral", sentiment_score := 0,
        confidence := 1/2 }

/-! ### src/lambda/sentiment-consumer/extractors/engagement_correlator.py

`statistics.stdev` takes a square root, so this embedding lives in `ℝ`;
inputs stay `ℚ` (exact Python floats for the cases the claims evaluate). -/

/-- `statistics.mean`. -/
def listMean (xs : List ℚ) : ℚ := xs.sum / (xs.length : ℚ)

/-- Sample variance with the `n - 1` denominator, as used by
`statistics.stdev` (only reached for `n ≥ 2`). -/
def sampleVariance (xs : List ℚ) : ℚ :=
  (xs.map (fun x => (x - listMean xs) ^ 2)).sum / ((xs.length : ℚ) - 1)

/-- `statistics.stdev`. -/
noncomputable def sampleStdev (xs : List ℚ) : ℝ :=
  Real.sqrt ((sampleVariance xs : ℚ) : ℝ)

/-- `EngagementSentimentCorrelator._calculate_correlation`.  The
`try/except` around `stdev` is dead on this path (the inputs are nonempty
float lists of length ≥ 2) and is omitted. -/
noncomputable def calculateCorrelation (engagements sentiment_scores : List ℚ) :
    ℝ :=
  if engagements.isEmpty ∨ sentiment_scores.isEmpty then 0
  else if engagements.length ≠ sentiment_scores.length then 0
  else if engagements.length < 2 then 0
  else
    let std_engagement := sampleStdev engagements
    let std_sentiment := sampleStdev sentiment_scores
    if std_engagement = 0 ∨ std_sentiment = 0 then 0
    else
      let mean_engagement := ((listMean engagements : ℚ) : ℝ)
      let mean_sentiment := ((listMean sentiment_scores : ℚ) : ℝ)
      let covariance :=
        ((List.zip engagements sentiment_scores).map
          (fun es => (((es.1 : ℚ) : ℝ) - mean_engagement) *
                     (((es.2 : ℚ) : ℝ) - mean_sentiment))).sum /
          ((engagements.length : ℕ) : ℝ)
      max (-1) (min 1 (covariance / (std_engagement * std_sentiment)))

/-! ### src/lambda/sentiment-consumer/deserializer.py

The event record is a parsed JSON-ish dictionary; the base64 payload string
is classified by how the stdlib decoding pipeline treats it (each constructor
is an equivalence class of concrete strings). -/

/-- Classification of the decoded bytes by the `post_from_bytes` pipeline:
not valid UTF-8 (`UnicodeDecodeError`, re-raised as `ValueError`), UTF-8 text
rejected by `json.loads` (`JSONDecodeError`, re-raised as `ValueError`), or
well-formed JSON decoding to `v`. -/
inductive Payload
  | notUtf8
  | notJsonText
  | json (v : JValue)

/-- The `'data'` entry of the `'kinesis'` dict: absent or falsy (`if not
encoded_data`), a value `base64.b64decode` rejects with `TypeError`, a string
it rejects as invalid base64, or a decodable payload. -/
inductive DataField
  | absent
  | nonString
  | invalidB64
  | decoded (p : Payload)

/-- The `'kinesis'` entry of the event record: absent (`.get` defaults to
`{}`), a non-dict (on which `.get` raises `AttributeError`), or a dict with
its `'data'` entry. -/
inductive KinesisField
  | absent
  | notDict
  | dict (data : DataField)

/-- The event record itself: a non-dict (on which `.get` raises
`AttributeError`), or a dict with its `'kinesis'` entry. -/
inductive RecordInput
  | notDict
  | dict (kinesis : KinesisField)

/-- `post_from_bytes` = `deserialize_from_bytes(.., SocialMediaPost)`:
`UnicodeDecodeError` and the exceptions `deserialize_from_json` catches
(`JSONDecodeError`, `TypeError`, `ValueError`) are re-raised as `ValueError`;
an `AttributeError` from `_dict_to_dataclass` propagates unchanged. -/
def postFromPayload : Payload → Except PyErr SocialMediaPost
  | Payload.notUtf8 => Except.error (PyErr.valueError "Failed to decode bytes to UTF-8")
  | Payload.notJsonText => Except.error (PyErr.valueError "Failed to deserialize JSON")
  | Payload.json v =>
      match dictToPost v with
      | Except.ok p => Except.ok p
      | Except.error (PyErr.valueError m) => Except.error (PyErr.valueError m)
      | Except.error (PyErr.typeError m) => Except.error (PyErr.valueError m)
      | Except.error (PyErr.attributeError m) =>
          Except.error (PyErr.attributeError m)

/-- The body of `RecordDeserializer.deserialize_record` up to but not
including the outer `except Exception` handler: an `Except.error` is an
exception that would escape the inner handlers. -/
def deserializeRecordBody : RecordInput → Except PyErr (Option SocialMediaPost)
  | RecordInput.notDict => Except.error (PyErr.attributeError "no attribute get")
  | RecordInput.dict KinesisField.absent => Except.ok none
  | RecordInput.dict KinesisField.notDict =>
      Except.error (PyErr.attributeError "no attribute get")
  | RecordInput.dict (KinesisField.dict DataField.absent) => Except.ok none
  | RecordInput.dict (KinesisField.dict DataField.nonString) => Except.ok none
  | RecordInput.dict (KinesisField.dict DataField.invalidB64) => Except.ok none
  | RecordInput.dict (KinesisField.dict (DataField.decoded p)) =>
      match postFromPayload p with
      | Except.ok post => Except.ok (some post)
      | Except.error (PyErr.valueError _) => Except.ok none
      | Except.error e => Except.error e

/-- `RecordDeserializer.deserialize_record`: the outer `except Exception`
turns any escaping exception into `None`. -/
def deserializeRecord (r : RecordInput) : Option SocialMediaPost :=
  match deserializeRecordBody r with
  | Except.ok res => res
  | Except.error _ => none

/-! ## Theorems -/

/-- The list of delays returned by `n` successive `get_delay()` calls
(jitter-free instances ignore `rand`, passed as 0). -/
def backoffDelays (b : ExponentialBackoff) : ℕ → List ℚ
  | 0 => []
  | n + 1 =>
      let step := b.getDelay 0
      step.1 :: backoffDelays step.2 n

/-- The backoff state after `n` successive `get_delay()` calls. -/
def backoffStateAfter (b : ExponentialBackoff) : ℕ → ExponentialBackoff
  | 0 => b
  | n + 1 => backoffStateAfter (b.getDelay 0).2 n

/-- A jitter-free `get_delay()` never exceeds a nonnegative `max_delay`. -/
theorem getDelay_le_max (b : ExponentialBackoff) (rand : ℚ)
    (hj : b.jitter = false) (h0 : 0 ≤ b.max_delay) :
    (b.getDelay rand).1 ≤ b.max_delay := by
  unfold ExponentialBackoff.getDelay
  split
  · exact h0
  · simp only [hj]
    simp

/-- C5: for `ExponentialBackoff(base_delay=0.1, max_delay=5.0, max_retries=5,
jitter=False)`, the successive `get_delay()` values are exactly 0.1, 0.2,
0.4, 0.8, 1.6 seconds, every returned delay (from any attempt state of this
instance) is at most 5.0, and `should_retry()` is still true after 4 issued
delays and false exactly after 5. -/
theorem backoff_delay_sequence :
    backoffDelays (ExponentialBackoff.init (1/10) 5 5 false) 5 =
      [1/10, 2/10, 4/10, 8/10, 16/10] ∧
    (∀ (k : ℕ) (rand : ℚ),
      ({ ExponentialBackoff.init (1/10) 5 5 false with attempt := k
         }.getDelay rand).1 ≤ 5) ∧
    (backoffStateAfter (ExponentialBackoff.init (1/10) 5 5 false) 4).shouldRetry
      = true ∧
    (backoffStateAfter (ExponentialBackoff.init (1/10) 5 5 false) 5).shouldRetry
      = false := by
  refine ⟨?_, ?_, by decide, by decide⟩
  · norm_num [backoffDelays, ExponentialBackoff.getDelay,
      ExponentialBackoff.init, min_def]
  · intro k rand
    exact getDelay_le_max _ rand rfl (by norm_num [ExponentialBackoff.init])

/-- C9: the derived producer metrics — average latency is
`total_latency_ms / messages_sent` and 0 when nothing was sent, average
message size is `message_size / messages_sent` and 0 when nothing was sent,
and the success rate is `messages_sent / (messages_sent + messages_failed) ×
100` and 100 when there were no attempts; the division guards make the
division-by-zero branches unreachable. -/
theorem producer_metrics_derived (m : ProducerMetrics) :
    (m.messages_sent = 0 →
      m.getAverageLatencyMs = 0 ∧ m.getAverageMessageSize = 0) ∧
    (m.messages_sent ≠ 0 →
      m.getAverageLatencyMs = m.total_latency_ms / (m.messages_sent : ℚ) ∧
      m.getAverageMessageSize = (m.message_size : ℚ) / (m.messages_sent : ℚ)) ∧
    (m.messages_sent + m.messages_failed = 0 → m.getSuccessRate = 100) ∧
    (m.messages_sent + m.messages_failed ≠ 0 →
      m.getSuccessRate =
        ((m.messages_sent : ℚ) / ((m.messages_sent + m.messages_failed : ℕ) : ℚ))
          * 100) := by
  refine ⟨fun h => ?_, fun h => ?_, fun h => ?_, fun h => ?_⟩ <;>
    simp [ProducerMetrics.getAverageLatencyMs,
      ProducerMetrics.getAverageMessageSize, ProducerMetrics.getSuccessRate, h]

/-- C9 witness: a concrete metrics state with 2 sent, 3 failed, 10 ms total
latency and 40 bytes: average latency 5 ms, average size 20 bytes, success
rate 40%.  A state with no attempts has success rate 100. -/
theorem producer_metrics_derived_witness :
    ProducerMetrics.getAverageLatencyMs ⟨2, 3, 0, 10, 1, 0, 40, none⟩ = 5 ∧
    ProducerMetrics.getAverageMessageSize ⟨2, 3, 0, 10, 1, 0, 40, none⟩ = 20 ∧
    ProducerMetrics.getSuccessRate ⟨2, 3, 0, 10, 1, 0, 40, none⟩ = 40 ∧
    ProducerMetrics.getSuccessRate ⟨0, 0, 0, 0, 0, 0, 0, none⟩ = 100 := by
  have h1 := (producer_metrics_derived ⟨2, 3, 0, 10, 1, 0, 40, none⟩).2.1
    (by decide)
  have h2 := (producer_metrics_derived ⟨2, 3, 0, 10, 1, 0, 40, none⟩).2.2.2
    (by decide)
  have h3 := (producer_metrics_derived ⟨0, 0, 0, 0, 0, 0, 0, none⟩).2.2.1
    (by decide)
  refine ⟨?_, ?_, ?_, h3⟩
  · rw [h1.1]; norm_num
  · rw [h1.2]; norm_num
  · rw [h2]; norm_num

/-- C8: the geographic analyzer's dominant sentiment is the class with the
highest count, ties resolved with precedence positive > neutral > negative;
in particular a three-way tie resolves to positive, and a neutral/negative
tie with no positive posts resolves to neutral. -/
theorem dominant_sentiment_spec :
    (∀ positive_count negative_count neutral_count : ℕ,
      determineDominantSentiment positive_count negative_count neutral_count =
        dominantSentimentSpec positive_count negative_count neutral_count) ∧
    determineDominantSentiment 2 2 2 = "positive" ∧
    determineDominantSentiment 0 3 3 = "neutral" := by
  refine ⟨fun p n z => ?_, by decide, by decide⟩
  show (if p = max p (max n z) then "positive"
        else if z = max p (max n z) then "neutral" else "negative")
      = dominantSentimentSpec p n z
  unfold dominantSentimentSpec
  split_ifs <;> first | rfl | omega

/-- C3 counterexample: on a freshly constructed controller (before
`start_demo()`), `get_phase_progress`, `get_demo_progress` and
`get_post_type_distribution` do not fail — they return 0.0, 0.0 and the
default distribution — refuting the claim that every phase-dependent
accessor raises a "not started" error. -/
theorem accessors_before_start_counterexample :
    (TrafficPatternController.init ⟨[120, 120, 120, 120]⟩).getPhaseProgress 0 =
      Except.ok 0 ∧
    (TrafficPatternController.init ⟨[120, 120, 120, 120]⟩).getDemoProgress 0 =
      0 ∧
    (TrafficPatternController.init ⟨[120, 120, 120, 120]⟩).getPostTypeDistribution
      0 = Except.ok (7/10, 2/10, 1/10) :=
  ⟨rfl, rfl, rfl⟩

/-- C3 (amended): before `start_demo()`, `get_current_phase` and
`get_target_tps` fail with the "Demo has not been started" error, while
`get_phase_progress` and `get_demo_progress` return 0.0 and
`get_post_type_distribution` returns the default distribution
(0.7, 0.2, 0.1) without error. -/
theorem accessors_before_start (c : TrafficPatternController) (now : ℚ)
    (h : c.demo_start_time = none) :
    c.getCurrentPhase now = Except.error "Demo has not been started" ∧
    c.getTargetTps now = Except.error "Demo has not been started" ∧
    c.getPhaseProgress now = Except.ok 0 ∧
    c.getDemoProgress now = 0 ∧
    c.getPostTypeDistribution now = Except.ok (7/10, 2/10, 1/10) := by
  refine ⟨?_, ?_, ?_, ?_, ?_⟩ <;>
    simp [TrafficPatternController.getCurrentPhase,
      TrafficPatternController.getTargetTps,
      TrafficPatternController.getPhaseProgress,
      TrafficPatternController.getDemoProgress,
      TrafficPatternController.getPostTypeDistribution, h]

/-- C3 witness: the amended statement applied to a freshly constructed
controller at instant 0. -/
theorem accessors_before_start_witness :
    (TrafficPatternController.init ⟨[120, 120, 120, 120]⟩).getCurrentPhase 0 =
      Except.error "Demo has not been started" ∧
    (TrafficPatternController.init ⟨[120, 120, 120, 120]⟩).getTargetTps 0 =
      Except.error "Demo has not been started" :=
  ⟨(accessors_before_start (TrafficPatternController.init
      ⟨[120, 120, 120, 120]⟩) 0 rfl).1,
   (accessors_before_start (TrafficPatternController.init
      ⟨[120, 120, 120, 120]⟩) 0 rfl).2.1⟩

/-- C4: for the producer's circuit breaker (threshold 3, timeout 30 s): with
3 or more consecutive failures recorded, a nonempty batch sent within 30
seconds of the last failure is dropped without an underlying call — its
records counted as failed; once 30 seconds have elapsed the underlying call
is attempted again; a successful attempted send resets the failure count to
zero; and while the breaker is closed, a failed send increments the failure
count and stamps the failure time. -/
theorem circuit_breaker_spec (p : ProducerState) (n : ℕ) (now t : ℚ)
    (outcome : SendOutcome)
    (hth : p.circuit_breaker_threshold = 3)
    (hto : p.circuit_breaker_timeout = 30)
    (hn : n ≠ 0) :
    (3 ≤ p.circuit_breaker_failures →
      p.circuit_breaker_last_failure = some t →
      now - t < 30 →
      p.sendCurrentBatch n now outcome =
        ({ p with messages_failed := p.messages_failed + n },
         SendAction.dropped)) ∧
    (3 ≤ p.circuit_breaker_failures →
      p.circuit_breaker_last_failure = some t →
      30 ≤ now - t →
      (p.sendCurrentBatch n now outcome).2 = SendAction.attempted) ∧
    ((p.sendCurrentBatch n now SendOutcome.success).2 = SendAction.attempted →
      (p.sendCurrentBatch n now SendOutcome.success).1.circuit_breaker_failures
        = 0) ∧
    (p.isCircuitBreakerOpen now = false →
      (p.sendCurrentBatch n now SendOutcome.failure).1.circuit_breaker_failures
          = p.circuit_breaker_failures + 1 ∧
      (p.sendCurrentBatch n now SendOutcome.failure).1.circuit_breaker_last_failure
          = some now) := by
  refine ⟨fun h3 hl hw => ?_, fun h3 hl hw => ?_, fun _ => ?_, fun hc => ?_⟩
  · have hopen : p.isCircuitBreakerOpen now = true := by
      simp [ProducerState.isCircuitBreakerOpen, hth, hl, hto, hw, Nat.not_lt.mpr h3]
    simp [ProducerState.sendCurrentBatch, hn, hopen]
  · have hclosed : p.isCircuitBreakerOpen now = false := by
      simp [ProducerState.isCircuitBreakerOpen, hth, hl, hto, not_lt.mpr hw]
    cases outcome <;> simp [ProducerState.sendCurrentBatch, hn, hclosed]
  · by_cases hopen : p.isCircuitBreakerOpen now = true
    · simp [ProducerState.sendCurrentBatch, hn, hopen] at *
    · simp [ProducerState.sendCurrentBatch, hn,
        Bool.not_eq_true _ ▸ hopen] at *
  · simp [ProducerState.sendCurrentBatch, hn, hc]

/-- C4 witness: a breaker with 3 recorded failures (last at instant 0) drops
a 2-record batch at instant 5, attempts again at instant 30, and a
successful send at instant 31 resets the failure count. -/
theorem circuit_breaker_spec_witness :
    (ProducerState.sendCurrentBatch
        { ProducerState.init with
            circuit_breaker_failures := 3
            circuit_breaker_last_failure := some 0 } 2 5 SendOutcome.failure =
      ({ ProducerState.init with
           circuit_breaker_failures := 3
           circuit_breaker_last_failure := some 0
           messages_failed := 2 }, SendAction.dropped)) ∧
    ((ProducerState.sendCurrentBatch
        { ProducerState.init with
            circuit_breaker_failures := 3
            circuit_breaker_last_failure := some 0 } 2 30
        SendOutcome.success).2 = SendAction.attempted) ∧
    ((ProducerState.sendCurrentBatch
        { ProducerState.init with
            circuit_breaker_failures := 3
            circuit_breaker_last_failure := some 0 } 2 31
        SendOutcome.success).1.circuit_breaker_failures = 0) := by
  have h1 := (circuit_breaker_spec
    { ProducerState.init with
        circuit_breaker_failures := 3
        circuit_breaker_last_failure := some 0 } 2 5 0 SendOutcome.failure
    rfl rfl (by decide)).1 (by decide) rfl (by norm_num)
  have h2 := (circuit_breaker_spec
    { ProducerState.init with
        circuit_breaker_failures := 3
        circuit_breaker_last_failure := some 0 } 2 30 0 SendOutcome.success
    rfl rfl (by decide)).2.1 (by decide) rfl (by norm_num)
  have h2b := (circuit_breaker_spec
    { ProducerState.init with
        circuit_breaker_failures := 3
        circuit_breaker_last_failure := some 0 } 2 31 0 SendOutcome.success
    rfl rfl (by decide)).2.1 (by decide) rfl (by norm_num)
  have h3 := (circuit_breaker_spec
    { ProducerState.init with
        circuit_breaker_failures := 3
        circuit_breaker_last_failure := some 0 } 2 31 0 SendOutcome.success
    rfl rfl (by decide)).2.2.1
  exact ⟨h1, h2, h3 h2b⟩

/-- Ceiling bound used by the chunking proof: a nonzero `n` is covered by
`(n + k - 1) / k` chunks of size `k`. -/
theorem le_ceilDiv_mul (n k : ℕ) (hk : 0 < k) (hn : n ≠ 0) :
    n ≤ ((n + k - 1) / k) * k := by
  have hrw : (n + k - 1) / k = (n - 1) / k + 1 := by
    rw [show n + k - 1 = (n - 1) + k by omega, Nat.add_div_right _ hk]
  rw [hrw]
  have h2 := Nat.div_add_mod (n - 1) k
  have h3 := Nat.mod_lt (n - 1) hk
  have hc : ((n - 1) / k + 1) * k = k * ((n - 1) / k) + k := by
    rw [Nat.add_mul, one_mul, Nat.mul_comm]
  omega

/-- Chunks cut at consecutive multiples of `k` flatten back to the original
list, provided the chunk count covers the whole list. -/
theorem chunks_join {α : Type _} (k : ℕ) :
    ∀ (m : ℕ) (xs : List α), xs.length ≤ m * k →
      ((List.range m).map (fun i => (xs.drop (i * k)).take k)).flatten = xs := by
  intro m
  induction m with
  | zero =>
      intro xs hle
      simp only [Nat.zero_mul, Nat.le_zero, List.length_eq_zero] at hle
      simp [hle]
  | succ m ih =>
      intro xs hle
      rw [List.range_succ_eq_map]
      simp only [List.map_cons, List.map_map, List.flatten_cons, Nat.zero_mul,
        List.drop_zero]
      have hfun : ((fun i => (xs.drop (i * k)).take k) ∘ Nat.succ) =
          (fun i => ((xs.drop k).drop (i * k)).take k) := by
        funext i
        simp only [Function.comp_apply, List.drop_drop]
        rw [Nat.succ_mul, Nat.add_comm]
      rw [hfun, ih (xs.drop k) ?_, List.take_append_drop]
      rw [List.length_drop]
      rw [Nat.succ_mul] at hle
      omega

/-- Every chunk produced by `createBatches` has length at most `k`. -/
theorem createBatches_length_le {α : Type _} (k : ℕ) (posts : List α) :
    ∀ b ∈ createBatches k posts, b.length ≤ k := by
  intro b hb
  unfold createBatches at hb
  split at hb
  · exact absurd hb (List.not_mem_nil b)
  · obtain ⟨i, _, rfl⟩ := List.mem_map.mp hb
    exact le_trans (List.length_take_le _ _) le_rfl

/-- The chunks produced by `createBatches` flatten back to the input list. -/
theorem createBatches_join {α : Type _} (k : ℕ) (hk : 1 ≤ k) (posts : List α) :
    (createBatches k posts).flatten = posts := by
  unfold createBatches
  split
  · next h => simp [List.isEmpty_iff.mp h]
  · next h =>
      have hne : posts ≠ [] := by
        intro hnil
        rw [hnil] at h
        exact h rfl
      exact chunks_join k _ posts
        (le_ceilDiv_mul posts.length k hk
          (fun h0 => hne (List.length_eq_zero.mp h0)))

/-- C7: `create_batches` splits any list into consecutive chunks of at most
`max_batch_size` posts preserving the original order (the chunks flatten back
to the input); 60 posts with `max_batch_size=25` give exactly the sizes
`[25, 25, 10]`; an empty input gives no batches; and constructing a
`BatchProcessor` with `max_batch_size=0` fails with the `ValueError`. -/
theorem create_batches_spec {α : Type} (k : ℕ) (posts : List α)
    (hk : 1 ≤ k) :
    (createBatches k posts).flatten = posts ∧
    (∀ b ∈ createBatches k posts, b.length ≤ k) ∧
    (createBatches 25 (List.range 60)).map List.length = [25, 25, 10] ∧
    createBatches 25 ([] : List α) = [] ∧
    BatchProcessor.make 0 = Except.error "max_batch_size must be at least 1" := by
  refine ⟨createBatches_join k hk posts, createBatches_length_le k posts,
    by decide, ?_, rfl⟩
  simp [createBatches]

/-- C7 witness: the statement applied to the 60-element list with chunk size
25. -/
theorem create_batches_spec_witness :
    (createBatches 25 (List.range 60)).flatten = List.range 60 ∧
    (createBatches 25 (List.range 60)).map List.length = [25, 25, 10] :=
  ⟨(create_batches_spec 25 (List.range 60) (by decide)).1,
   (create_batches_spec 25 (List.range 60) (by decide)).2.2.1⟩

/-- Count normalization always yields exactly one score per post. -/
theorem normalizeScores_length (s : List JScore) (n : ℕ) :
    (normalizeScores s n).length = n := by
  unfold normalizeScores
  split_ifs with h1 h2
  · simp only [List.length_append, List.length_replicate]
    omega
  · simp only [List.length_take]
    omega
  · omega

/-- Pointwise description of the normalized score array: entry `i < n` is the
model's entry when present and the neutral `0.0` pad otherwise. -/
theorem normalizeScores_getD (s : List JScore) (n i : ℕ) (h : i < n) :
    (normalizeScores s n).getD i (JScore.num 0) = s.getD i (JScore.num 0) := by
  unfold normalizeScores
  simp only [List.getD_eq_getElem?_getD]
  split_ifs with h1 h2
  · by_cases hi : i < s.length
    · rw [List.getElem?_append_left hi]
    · rw [List.getElem?_append_right (by omega),
        List.getElem?_eq_none (l := s) (by omega)]
      simp only [List.getElem?_replicate]
      rw [if_pos (by omega)]
      rfl
  · rw [List.getElem?_take_of_lt h]
  · rfl

/-- The conversion loop produces one result per index while both lists
last. -/
theorem parseLoop_length :
    ∀ (ss : List JScore) (posts : List SocialMediaPost),
      (parseLoop ss posts).length = min ss.length posts.length := by
  intro ss
  induction ss with
  | nil => intro posts; simp [parseLoop]
  | cons s ss ih =>
      intro posts
      cases posts with
      | nil => simp [parseLoop]
      | cons p ps =>
          simp only [parseLoop, List.length_cons, ih ps]
          omega

/-- Pointwise description of the conversion loop. -/
theorem parseLoop_getD :
    ∀ (ss : List JScore) (posts : List SocialMediaPost) (i : ℕ),
      i < ss.length → i < posts.length →
      (parseLoop ss posts).getD i default =
        scoreToResult (posts.getD i default) (ss.getD i (JScore.num 0)) := by
  intro ss
  induction ss with
  | nil => intro posts i h1 _; simp at h1
  | cons s ss ih =>
      intro posts i h1 h2
      cases posts with
      | nil => simp at h2
      | cons p ps =>
          cases i with
          | zero => simp [parseLoop]
          | succ j =>
              simp only [parseLoop, List.getD_cons_succ]
              exact ih ps j (by simpa using h1) (by simpa using h2)

/-- The loop body agrees with the claim's per-entry description. -/
theorem scoreToResult_eq_claimedResult (p : SocialMediaPost) (s : JScore) :
    scoreToResult p s = claimedResult p s := by
  cases s <;> rfl

/-- C2: for a non-empty post list, `_parse_response` yields exactly one result
per post, and result `i` is determined by the effective score entry at `i`
(the model's entry when present, a neutral `0.0` otherwise — covering both
padding and truncation): numeric entries are clamped to `[-1,1]` and
thresholded at `±0.1` with confidence 1.0, and a non-numeric entry degrades
to a neutral result with confidence 0.5 for that index only. -/
theorem parse_response_spec (posts : List SocialMediaPost)
    (sentiment_data : List JScore) (_hne : posts ≠ []) :
    (parseResponseScores sentiment_data posts).length = posts.length ∧
    ∀ i, i < posts.length →
      (parseResponseScores sentiment_data posts).getD i default =
        claimedResult (posts.getD i default)
          (sentiment_data.getD i (JScore.num 0)) := by
  have hlen := normalizeScores_length sentiment_data posts.length
  constructor
  · unfold parseResponseScores
    rw [parseLoop_length, hlen, Nat.min_self]
  · intro i hi
    unfold parseResponseScores
    rw [parseLoop_getD _ posts i (by omega) hi,
      normalizeScores_getD sentiment_data posts.length i hi,
      scoreToResult_eq_claimedResult]

/-- C2 witness: two posts with a short response array `[2]` — the theorem
applies, giving the padded neutral result at index 1. -/
theorem parse_response_spec_witness :
    (parseResponseScores [JScore.num 2]
        [⟨"a", "t", "u", "v", "c", [], [], none, 0, PostType.original⟩,
         ⟨"b", "t", "u", "v", "c", [], [], none, 0, PostType.original⟩]).getD 1
        default =
      claimedResult ⟨"b", "t", "u", "v", "c", [], [], none, 0,
        PostType.original⟩ (JScore.num 0) :=
  (parse_response_spec
    [⟨"a", "t", "u", "v", "c", [], [], none, 0, PostType.original⟩,
     ⟨"b", "t", "u", "v", "c", [], [], none, 0, PostType.original⟩]
    [JScore.num 2] (List.cons_ne_nil _ _)).2 1 (by decide)

/-- C10: `deserialize_record` is total — for every input it returns a post or
`None`; every exception escaping the body is caught by the outer handler and
mapped to `None`; and each listed failure mode — missing `kinesis` dict,
missing `data` field, invalid base64, non-UTF-8 bytes, malformed JSON, and a
model-validation failure (a negative engagement score) — yields `None`. -/
theorem deserialize_record_total :
    (∀ r : RecordInput, deserializeRecord r = none ∨
      ∃ p, deserializeRecord r = some p) ∧
    (∀ (r : RecordInput) (e : PyErr),
      deserializeRecordBody r = Except.error e → deserializeRecord r = none) ∧
    deserializeRecord RecordInput.notDict = none ∧
    deserializeRecord (RecordInput.dict KinesisField.absent) = none ∧
    deserializeRecord (RecordInput.dict (KinesisField.dict DataField.absent))
      = none ∧
    deserializeRecord (RecordInput.dict (KinesisField.dict DataField.invalidB64))
      = none ∧
    deserializeRecord (RecordInput.dict (KinesisField.dict
      (DataField.decoded Payload.notUtf8))) = none ∧
    deserializeRecord (RecordInput.dict (KinesisField.dict
      (DataField.decoded Payload.notJsonText))) = none ∧
    deserializeRecord (RecordInput.dict (KinesisField.dict (DataField.decoded
      (Payload.json (JValue.obj [("engagement_score", JValue.num (-1))])))))
      = none := by
  refine ⟨fun r => ?_, fun r e he => ?_, rfl, rfl, rfl, rfl, rfl, rfl, ?_⟩
  · cases hr : deserializeRecord r with
    | none => exact Or.inl rfl
    | some p => exact Or.inr ⟨p, rfl⟩
  · unfold deserializeRecord
    rw [he]
  · rfl

/-- C10 witness: the catch-all part applied to a non-dict event record, whose
body raises `AttributeError`. -/
theorem deserialize_record_total_witness :
    deserializeRecord RecordInput.notDict = none :=
  deserialize_record_total.2.1 RecordInput.notDict
    (PyErr.attributeError "no attribute get") rfl

/-- The sample variance of a constant list is zero. -/
theorem sampleVariance_const (xs : List ℚ) (c : ℚ) (hc : ∀ x ∈ xs, x = c)
    (hne : xs ≠ []) : sampleVariance xs = 0 := by
  have hlen : (xs.length : ℚ) ≠ 0 := by
    simp [List.length_eq_zero]
    exact hne
  have hmean : listMean xs = c := by
    unfold listMean
    rw [List.sum_eq_card_nsmul xs c hc, nsmul_eq_mul]
    field_simp
  unfold sampleVariance
  rw [List.sum_eq_zero, zero_div]
  intro x hx
  obtain ⟨y, hy, rfl⟩ := List.mem_map.mp hx
  rw [hmean, hc y hy]
  ring

/-- C6: the correlation coefficient is always within `[-1, 1]`; a list of
identical engagement values yields `0.0` (zero variance treated as no
correlation); and fewer than 2 posts yield `0.0`. -/
theorem correlation_spec :
    (∀ engagements sentiment_scores : List ℚ,
      -1 ≤ calculateCorrelation engagements sentiment_scores ∧
      calculateCorrelation engagements sentiment_scores ≤ 1) ∧
    (∀ (engagements sentiment_scores : List ℚ) (c : ℚ),
      (∀ x ∈ engagements, x = c) →
      calculateCorrelation engagements sentiment_scores = 0) ∧
    (∀ engagements sentiment_scores : List ℚ,
      engagements.length < 2 →
      calculateCorrelation engagements sentiment_scores = 0) := by
  refine ⟨fun es ss => ?_, fun es ss c hc => ?_, fun es ss hlen => ?_⟩
  · simp only [calculateCorrelation]
    split_ifs <;>
      exact ⟨by norm_num, by norm_num⟩
  · simp only [calculateCorrelation]
    split_ifs with h1 h2 h3 h4
    · rfl
    · rfl
    · rfl
    · rfl
    · exfalso
      apply h4
      left
      have hne : es ≠ [] := by
        intro hnil
        exact h1 (Or.inl (by simp [hnil]))
      unfold sampleStdev
      rw [sampleVariance_const es c hc hne]
      simp
  · simp only [calculateCorrelation]
    split_ifs <;> rfl

/-- C6 witness: the constant-engagement and short-input parts applied to
concrete lists. -/
theorem correlation_spec_witness :
    ((∀ x ∈ ([2, 2] : List ℚ), x = 2) ∧
      calculateCorrelation [2, 2] [0, 1] = 0) ∧
    (([3] : List ℚ).length < 2 ∧ calculateCorrelation [3] [1] = 0) :=
  ⟨⟨by decide, correlation_spec.2.1 [2, 2] [0, 1] 2 (by decide)⟩,
   ⟨by decide, correlation_spec.2.2 [3] [1] (by decide)⟩⟩

/-- A well-formed `SocialMediaPost` as producible by the model layer: the
`__post_init__` invariants hold (non-empty user id and username, nonnegative
engagement score), the timestamp is a canonical (nonempty) ISO string, and an
attached location has in-range coordinates. -/
def validLocation : Option GeoLocation → Bool
  | none => true
  | some g => decide (-90 ≤ g.latitude) && decide (g.latitude ≤ 90) &&
      decide (-180 ≤ g.longitude) && decide (g.longitude ≤ 180)

/-- Validity of a post (see `validLocation`). -/
def ValidPost (p : SocialMediaPost) : Bool :=
  decide (p.user_id ≠ "") && decide (p.username ≠ "") &&
  decide (0 ≤ p.engagement_score) && decide (p.timestamp ≠ "") &&
  validLocation p.location

/-- Bind on `Except` applied to a success, reduced. -/
theorem bindOk {ε β γ : Type} (v : β) (f : β → Except ε γ) :
    Bind.bind (Except.ok v) f = f v := rfl

/-- Pure on `Except`, reduced. -/
theorem pureExcept {ε β : Type} (v : β) :
    (pure v : Except ε β) = Except.ok v := rfl

/-- Enum roundtrip: looking up `t.value` yields `t` again. -/
theorem postTypeOfValue_value (t : PostType) :
    postTypeOfValue t.value = Except.ok t := by
  cases t <;> rfl

/-- Decoding a serialized string list yields the original list. -/
theorem decodeStringList_map (l : List String) :
    decodeStringList (l.map JValue.str) = Except.ok l := by
  induction l with
  | nil => rfl
  | cons a as ih =>
      simp only [List.map_cons, decodeStringList, ih, bindOk, pureExcept]

/-- Deserializing the serialized form of a valid `GeoLocation` yields it
back. -/
theorem geoFromDict_serialize (lat lon : ℚ) (city country : String)
    (h1 : -90 ≤ lat) (h2 : lat ≤ 90) (h3 : -180 ≤ lon) (h4 : lon ≤ 180) :
    geoFromDict [("latitude", JValue.num lat), ("longitude", JValue.num lon),
      ("city", JValue.str city), ("country", JValue.str country)] =
      Except.ok ⟨lat, lon, city, country⟩ := by
  unfold geoFromDict
  rw [if_pos]
  · simp [List.find?, GeoLocation.make, h1, h2, h3, h4]
  · exact List.Perm.refl _

/-- Conversion of a field carried through unchanged. -/
theorem convertField_plain (name : String) (v : JValue)
    (h1 : name ≠ "timestamp") (h2 : name ≠ "post_type")
    (h3 : name ≠ "location") :
    convertField name v = Except.ok (PyValue.jv v) := by
  unfold convertField
  rw [if_neg h1, if_neg h2, if_neg h3]

theorem convertField_timestamp (s : String) (hs : s ≠ "") :
    convertField "timestamp" (JValue.str s) = Except.ok (PyValue.dt s) := by
  simp [convertField, fromisoformat, isoTimestamp, hs]

theorem convertField_post_type (t : PostType) :
    convertField "post_type" (JValue.str t.value) = Except.ok (PyValue.pt t) := by
  simp [convertField, postTypeOfValue_value]

theorem convertField_location_null :
    convertField "location" JValue.null = Except.ok (PyValue.jv JValue.null) :=
  rfl

theorem convertField_location_geo (lat lon : ℚ) (city country : String)
    (g : GeoLocation)
    (h : geoFromDict [("latitude", JValue.num lat),
        ("longitude", JValue.num lon), ("city", JValue.str city),
        ("country", JValue.str country)] = Except.ok g) :
    convertField "location" (JValue.obj [("latitude", JValue.num lat),
        ("longitude", JValue.num lon), ("city", JValue.str city),
        ("country", JValue.str country)]) = Except.ok (PyValue.geo g) := by
  simp [convertField, h]

theorem convertFields_cons_ok (name : String) (v : JValue) (pv : PyValue)
    (rest : List (String × JValue)) (converted : List (String × PyValue))
    (h1 : convertField name v = Except.ok pv)
    (h2 : convertFields rest = Except.ok converted) :
    convertFields ((name, v) :: rest) = Except.ok ((name, pv) :: converted) := by
  simp [convertFields, h1, h2, bindOk, pureExcept]

theorem convertFields_serialized (pid ts uid un ct : String)
    (hts : ts ≠ "") (htags mtags : List String) (sc : ℚ) (pt : PostType)
    (locv : JValue) (locpv : PyValue)
    (hloc : convertField "location" locv = Except.ok locpv) :
    convertFields
      [("id", JValue.str pid), ("timestamp", JValue.str ts),
       ("user_id", JValue.str uid), ("username", JValue.str un),
       ("content", JValue.str ct),
       ("hashtags", JValue.arr (htags.map JValue.str)),
       ("mentions", JValue.arr (mtags.map JValue.str)),
       ("location", locv),
       ("engagement_score", JValue.num sc),
       ("post_type", JValue.str pt.value)] =
      Except.ok
      [("id", PyValue.jv (JValue.str pid)), ("timestamp", PyValue.dt ts),
       ("user_id", PyValue.jv (JValue.str uid)),
       ("username", PyValue.jv (JValue.str un)),
       ("content", PyValue.jv (JValue.str ct)),
       ("hashtags", PyValue.jv (JValue.arr (htags.map JValue.str))),
       ("mentions", PyValue.jv (JValue.arr (mtags.map JValue.str))),
       ("location", locpv),
       ("engagement_score", PyValue.jv (JValue.num sc)),
       ("post_type", PyValue.pt pt)] := by
  refine convertFields_cons_ok _ _ _ _ _ (convertField_plain _ _ (by decide) (by decide) (by decide)) ?_
  refine convertFields_cons_ok _ _ _ _ _ (convertField_timestamp ts hts) ?_
  refine convertFields_cons_ok _ _ _ _ _ (convertField_plain _ _ (by decide) (by decide) (by decide)) ?_
  refine convertFields_cons_ok _ _ _ _ _ (convertField_plain _ _ (by decide) (by decide) (by decide)) ?_
  refine convertFields_cons_ok _ _ _ _ _ (convertField_plain _ _ (by decide) (by decide) (by decide)) ?_
  refine convertFields_cons_ok _ _ _ _ _ (convertField_plain _ _ (by decide) (by decide) (by decide)) ?_
  refine convertFields_cons_ok _ _ _ _ _ (convertField_plain _ _ (by decide) (by decide) (by decide)) ?_
  refine convertFields_cons_ok _ _ _ _ _ hloc ?_
  refine convertFields_cons_ok _ _ _ _ _ (convertField_plain _ _ (by decide) (by decide) (by decide)) ?_
  refine convertFields_cons_ok _ _ _ _ _ (convertField_post_type pt) ?_
  rfl
theorem constructPost_serialized (pid ts uid un ct : String)
    (htags mtags : List String) (loc : Option GeoLocation) (sc : ℚ)
    (pt : PostType) (huid : uid ≠ "") (hun : un ≠ "") (hsc : ¬ (sc < 0)) :
    constructPost
      [("id", PyValue.jv (JValue.str pid)), ("timestamp", PyValue.dt ts),
       ("user_id", PyValue.jv (JValue.str uid)),
       ("username", PyValue.jv (JValue.str un)),
       ("content", PyValue.jv (JValue.str ct)),
       ("hashtags", PyValue.jv (JValue.arr (htags.map JValue.str))),
       ("mentions", PyValue.jv (JValue.arr (mtags.map JValue.str))),
       ("location", match loc with
                    | none => PyValue.jv JValue.null
                    | some g => PyValue.geo g),
       ("engagement_score", PyValue.jv (JValue.num sc)),
       ("post_type", PyValue.pt pt)] =
      Except.ok ⟨pid, ts, uid, un, ct, htags, mtags, loc, sc, pt⟩ := by
  cases loc with
  | none =>
      simp [constructPost, lookupField, List.find?, decodeStringList_map,
        SocialMediaPost.make, huid, hun, hsc, bindOk, pureExcept]
  | some g =>
      simp [constructPost, lookupField, List.find?, decodeStringList_map,
        SocialMediaPost.make, huid, hun, hsc, bindOk, pureExcept]

/-- Unfolding of `_dict_to_dataclass` on a dict. -/
theorem dictToPost_obj (fields : List (String × JValue)) :
    dictToPost (JValue.obj fields) =
      Bind.bind (convertFields fields) (fun conv => constructPost conv) := rfl

/-- C1: deserializing the JSON serialization of any valid `SocialMediaPost`
(with or without a location, for each `PostType`) yields the post back
field-for-field, including hashtag/mention order, the nested `GeoLocation`,
and the `PostType` value. -/
theorem serialize_roundtrip (p : SocialMediaPost) (h : ValidPost p = true) :
    dictToPost (serializePost p) = Except.ok p := by
  obtain ⟨pid, ts, uid, un, ct, htags, mtags, loc, sc, pt⟩ := p
  simp only [ValidPost, Bool.and_eq_true, decide_eq_true_eq] at h
  obtain ⟨⟨⟨⟨huid, hun⟩, hsc⟩, hts'⟩, hloc⟩ := h
  cases loc with
  | none =>
      have hconv := convertFields_serialized pid ts uid un ct hts' htags mtags
        sc pt JValue.null (PyValue.jv JValue.null) convertField_location_null
      simp only [serializePost]
      rw [dictToPost_obj, hconv, bindOk]
      exact constructPost_serialized pid ts uid un ct htags mtags none sc pt
        huid hun (not_lt.mpr hsc)
  | some g =>
      obtain ⟨lat, lon, city, country⟩ := g
      simp only [validLocation, Bool.and_eq_true, decide_eq_true_eq] at hloc
      obtain ⟨⟨⟨hlat1, hlat2⟩, hlon1⟩, hlon2⟩ := hloc
      have hgeo := geoFromDict_serialize lat lon city country hlat1 hlat2
        hlon1 hlon2
      have hlocf := convertField_location_geo lat lon city country _ hgeo
      have hconv := convertFields_serialized pid ts uid un ct hts' htags mtags
        sc pt _ _ hlocf
      simp only [serializePost, serializeGeo]
      rw [dictToPost_obj, hconv, bindOk]
      exact constructPost_serialized pid ts uid un ct htags mtags
        (some ⟨lat, lon, city, country⟩) sc pt huid hun (not_lt.mpr hsc)

theorem serialize_roundtrip_witness :
    ValidPost ⟨"p1", "2025-01-01T00:00:00", "u1", "@u1", "hello",
      ["a", "b"], ["c"], some ⟨40, -74, "NYC", "US"⟩, 5, PostType.share⟩
      = true ∧
    dictToPost (serializePost ⟨"p1", "2025-01-01T00:00:00", "u1", "@u1",
      "hello", ["a", "b"], ["c"], some ⟨40, -74, "NYC", "US"⟩, 5,
      PostType.share⟩) =
      Except.ok ⟨"p1", "2025-01-01T00:00:00", "u1", "@u1", "hello",
        ["a", "b"], ["c"], some ⟨40, -74, "NYC", "US"⟩, 5, PostType.share⟩ :=
  ⟨by decide,
   serialize_roundtrip ⟨"p1", "2025-01-01T00:00:00", "u1", "@u1", "hello",
     ["a", "b"], ["c"], some ⟨40, -74, "NYC", "US"⟩, 5, PostType.share⟩
     (by decide)⟩

end KinesisDemo
